import Mathlib

/-!
Verification of the Health Diagnostic and Admission-Control Engine.

This file gives a shallow embedding, in Lean 4, of the health-probing and
admission-control core of the repository:

* `HealthMonitor` embeds the class of the same name in `http_server.py`
  (rejection-based readiness, liveness, startup and degraded probes).
  Wall-clock instants (Python `datetime.now()`) are threaded explicitly as
  integer counts of time units, which is exact: CPython datetimes have
  microsecond resolution.  Getters that in Python may mutate `self` are
  embedded as functions returning a pair of the snapshot and the successor
  state.

* `check_stdio_server`, `check_http_server` and `handle_check_all_health`
  embed the probe functions of `src/diagnostic_mcp/server.py`.  The
  interaction with the operating system (subprocess spawn and exit status,
  handshake read outcome, port scans, process table, venv inspection, raised
  exceptions) is captured by explicit behaviour records supplied as inputs;
  the classification and aggregation logic is translated from the source.
  Python dicts with optional keys become records with `Option`/`List`
  fields, conflating an absent key with a falsy value (`None`, `""`, `[]`),
  which is exactly the distinction the source code itself collapses via
  `if value:` guards when attaching the optional keys.
-/

namespace Diagnostics

/-- Transport kind of a server descriptor, as returned by
`get_transport_type` in `server.py` (strings "stdio" / "http" / "unknown"). -/
inductive Transport
  | stdio
  | http
  | unknown
deriving DecidableEq, Repr

/-- Probe status strings used by the probe functions in `server.py`.
`partialS` stands for the source string "partial" (reachable only through an
alternative channel). -/
inductive Status
  | online
  | offline
  | partialS
  | error
deriving DecidableEq, Repr

/-- The source-code string for each status value. -/
def Status.asString : Status → String
  | .online => "online"
  | .offline => "offline"
  | .partialS => "partial"
  | .error => "error"

/-! ## Admission controller (`HealthMonitor` in `http_server.py`) -/

/-- Immutable configuration of `HealthMonitor.__init__`.  CPython
`datetime`/`timedelta` values have microsecond resolution, so instants and
intervals are modelled as integer counts of time units; the degraded
threshold is a ratio. -/
structure HealthConfig where
  allowed_rejections : Nat
  sampling_interval : ℤ
  recovery_interval : ℤ
  startup_duration : ℤ
  degraded_threshold : ℚ
deriving DecidableEq

/-- Mutable state of a `HealthMonitor` instance.  `datetime` fields become
integer instants, the nullable `unready_since` becomes `Option ℤ`. -/
structure HealthMonitor where
  server_start_time : ℤ
  rejection_count : Nat
  last_sampling_reset : ℤ
  is_ready : Bool
  is_live : Bool
  unready_since : Option ℤ
  total_requests : Nat
  failed_requests : Nat
  last_health_check : ℤ
  failure_count : Nat
deriving DecidableEq

/-- State installed by `HealthMonitor.__init__` at instant `now`:
unready until startup completes, live, all counters zero. -/
def HealthMonitor.mk0 (now : ℤ) : HealthMonitor :=
  { server_start_time := now
    rejection_count := 0
    last_sampling_reset := now
    is_ready := false
    is_live := true
    unready_since := none
    total_requests := 0
    failed_requests := 0
    last_health_check := now
    failure_count := 0 }

/-- Embedding of `HealthMonitor._check_readiness(now)`.  A Python `datetime`
is always truthy, so the `self.unready_since` guard is `Option.isSome`. -/
def HealthMonitor.check_readiness (m : HealthMonitor) (cfg : HealthConfig)
    (now : ℤ) : HealthMonitor :=
  if now - m.server_start_time < cfg.startup_duration then
    m
  else if cfg.allowed_rejections < m.rejection_count ∧ m.is_ready = true then
    { m with is_ready := false, unready_since := some now }
  else if m.is_ready = false ∧ m.unready_since.isSome then
    match m.unready_since with
    | some since =>
        if cfg.recovery_interval < now - since then
          { m with is_ready := true, unready_since := none }
        else m
    | none => m
  else if m.is_ready = false ∧ m.unready_since.isNone then
    { m with is_ready := true }
  else m

/-- Embedding of `HealthMonitor.record_request(success)`.  The two
`datetime.now()` reads inside the Python method are a few microseconds
apart; both are modelled by the single instant `now`. -/
def HealthMonitor.record_request (m : HealthMonitor) (cfg : HealthConfig)
    (success : Bool) (now : ℤ) : HealthMonitor :=
  let m1 := { m with
    total_requests := m.total_requests + 1
    last_health_check := now }
  let m2 :=
    if success = false then
      { m1 with
        failed_requests := m1.failed_requests + 1
        rejection_count := m1.rejection_count + 1
        failure_count := m1.failure_count + 1 }
    else
      { m1 with failure_count := 0 }
  if cfg.sampling_interval < now - m2.last_sampling_reset then
    let m3 := m2.check_readiness cfg now
    { m3 with rejection_count := 0, last_sampling_reset := now }
  else m2

/-- Snapshot returned by `get_startup_status` (display-only fields such as
the ISO timestamp are omitted). -/
structure StartupStatus where
  up : Bool
  uptime_units : ℤ
  startup_complete : Bool
deriving DecidableEq

/-- Snapshot returned by `get_liveness`. -/
structure LivenessStatus where
  up : Bool
  consecutive_failures : Nat
deriving DecidableEq

/-- Snapshot returned by `get_readiness`. -/
structure ReadinessStatus where
  up : Bool
  degraded : Bool
  error_rate : ℚ
  total_requests : Nat
  failed_requests : Nat
deriving DecidableEq

/-- Embedding of `HealthMonitor.get_startup_status`.  The Python method only
reads `self`; the returned pair makes that explicit. -/
def HealthMonitor.get_startup_status (m : HealthMonitor) (cfg : HealthConfig)
    (now : ℤ) : StartupStatus × HealthMonitor :=
  let uptime := now - m.server_start_time
  let complete := decide (cfg.startup_duration ≤ uptime)
  ({ up := complete, uptime_units := uptime, startup_complete := complete }, m)

/-- Embedding of `HealthMonitor.get_liveness`: DOWN exactly when
`failure_count` has reached 10 consecutive failures. -/
def HealthMonitor.get_liveness (m : HealthMonitor) (cfg : HealthConfig)
    (now : ℤ) : LivenessStatus × HealthMonitor :=
  let _ := cfg
  let _ := now
  let live := decide (m.failure_count < 10)
  ({ up := live, consecutive_failures := m.failure_count }, m)

/-- Embedding of `HealthMonitor.get_readiness`.  Mirrors the forced
`_check_readiness` call performed when the sampling window has elapsed;
the snapshot is computed from the state after that call. -/
def HealthMonitor.get_readiness (m : HealthMonitor) (cfg : HealthConfig)
    (now : ℤ) : ReadinessStatus × HealthMonitor :=
  let m1 :=
    if cfg.sampling_interval < now - m.last_sampling_reset then
      m.check_readiness cfg now
    else m
  let error_rate :=
    if 0 < m1.total_requests then
      (m1.failed_requests : ℚ) / (m1.total_requests : ℚ)
    else 0
  let is_degraded := decide (cfg.degraded_threshold ≤ error_rate) && m1.is_ready
  ({ up := m1.is_ready
     degraded := is_degraded
     error_rate := error_rate
     total_requests := m1.total_requests
     failed_requests := m1.failed_requests }, m1)

/-- Overall status computed by `get_probe_status`
(priority: critical, starting, unready, degraded, healthy). -/
inductive OverallStatus
  | healthy
  | degraded
  | unready
  | starting
  | critical
deriving DecidableEq, Repr

/-- Snapshot returned by `get_probe_status`. -/
structure ProbeStatus where
  overall_status : OverallStatus
  startup : StartupStatus
  liveness : LivenessStatus
  readiness : ReadinessStatus
deriving DecidableEq

/-- Embedding of `HealthMonitor.get_probe_status`: combines the three probe
snapshots, in the call order of the source (startup and liveness read the
state before the readiness getter possibly recomputes it). -/
def HealthMonitor.get_probe_status (m : HealthMonitor) (cfg : HealthConfig)
    (now : ℤ) : ProbeStatus × HealthMonitor :=
  let s := (m.get_startup_status cfg now).1
  let l := (m.get_liveness cfg now).1
  let r := (m.get_readiness cfg now).1
  let m1 := (m.get_readiness cfg now).2
  let overall : OverallStatus :=
    if l.up = false then .critical
    else if s.up = false then .starting
    else if r.up = false then .unready
    else if r.degraded = true then .degraded
    else .healthy
  ({ overall_status := overall, startup := s, liveness := l, readiness := r }, m1)

/-- Fold a list of (success, instant) request outcomes through
`record_request`. -/
def runEvents (m : HealthMonitor) (cfg : HealthConfig)
    (events : List (Bool × ℤ)) : HealthMonitor :=
  events.foldl (fun st e => st.record_request cfg e.1 e.2) m

/-! ## Probe results (`server.py`) -/

/-- An alternative HTTP transport discovered by the port scan in
`check_stdio_server` (only the identifying port is modelled; the attached
health payload plays no role in classification). -/
structure AltTransport where
  port : Nat
deriving DecidableEq, Repr

/-- Health payload returned by `scan_http_port` for a responding port:
the self-reported identity field.  `server = none` stands for a payload
that is not a dict or has no server key; an unresponsive or non-HTTP port
is modelled as no `ScanResponse` at all. -/
structure ScanResponse where
  server : Option String
deriving DecidableEq, Repr

/-- Venv inspection payload of `check_venv_health`; only its presence is
relevant to the probe classification, so a single field stands for the
whole dict. -/
structure VenvHealth where
  status : String
deriving DecidableEq, Repr

/-- Probe result dict of `server.py`.  Optional dict keys become `Option`
or `List` fields; an absent key and a falsy value are identified. -/
structure ProbeResult where
  name : String
  transport : Transport
  status : Status
  response_time_ms : Option ℚ := none
  http_status : Option Nat := none
  error : Option String := none
  stderr : Option String := none
  note : Option String := none
  running_processes : List String := []
  alternative_transports : List AltTransport := []
  venv_health : Option VenvHealth := none
deriving DecidableEq

/-- Python `round(x, 2)` on milliseconds: round to the nearest multiple of
one hundredth.  (Python rounds exact halves to even, Mathlib `round` rounds
them up; no property below depends on the tie direction.) -/
def round2 (q : ℚ) : ℚ :=
  ((round (100 * q) : ℤ) : ℚ) / 100

/-- The fixed settle delay of `check_stdio_server` (50 ms sleep after
spawning, to catch immediate crashes). -/
def settleDelayMs : ℚ := 50

/-- Ports 5555..5582 scanned for alternative HTTP transports
(`range(5555, 5583)` in `check_stdio_server`). -/
def portRange : List Nat := (List.range 28).map (fun i => 5555 + i)

/-- Embedding of the alternative-transport scan loop of
`check_stdio_server`: keep every scanned port whose responder returns a
dict whose server field equals this server name. -/
def gatherAlternatives (server_name : String)
    (scan : Nat → Option ScanResponse) : List AltTransport :=
  portRange.filterMap (fun port =>
    match scan port with
    | some resp =>
        if resp.server = some server_name then some { port := port } else none
    | none => none)

/-- Embedding of the venv-path extraction of `check_stdio_server`: the
argument following a `--from` flag, when both exist. -/
def venvPathOf (args : List String) : Option String :=
  if args ≠ [] ∧ "--from" ∈ args then
    match args.findIdx? (fun a => a = "--from") with
    | some i => args[i + 1]?
    | none => none
  else none

/-- How the JSON parse of the single handshake response line went
(`json.loads` plus the result/error key test in `check_stdio_server`). -/
inductive LineParse
  | jsonWithResultOrError
  | jsonOther
  | notJson
deriving DecidableEq, Repr

/-- Outcome of the handshake phase of a spawned stdio subprocess, i.e. which
return path of `check_stdio_server` the OS behaviour selects after a
successful spawn:

* `settledExit rc`: the process had already exited (code `rc`) when checked
  after the settle delay;
* `brokenPipeExit rc`: writing the handshake raised a broken-pipe error and
  the process had exited (a broken pipe with the process still alive falls
  through to the read, so it is represented by the read outcomes);
* `line p e`: the read returned a non-empty line after `e` ms, parsed as `p`;
* `emptyAlive e`: the read returned an empty line with the process alive;
* `emptyExit rc`: the read returned an empty line and the process had exited;
* `timeoutAlive extra`: the read timed out with the process still alive;
  `extra ≥ 0` is the wall time spent outside the settle sleep and the
  timed-out read (handshake write, scheduling overhead), so the elapsed
  time at this exit is `settleDelayMs + 1000·timeout + extra`;
* `timeoutExit rc`: the read timed out and the process had exited. -/
inductive HandshakeOutcome
  | settledExit (returncode : Int)
  | brokenPipeExit (returncode : Int)
  | line (parse : LineParse) (elapsedMs : ℚ)
  | emptyAlive (elapsedMs : ℚ)
  | emptyExit (returncode : Int)
  | timeoutAlive (extraMs : ℚ)
  | timeoutExit (returncode : Int)
deriving DecidableEq, Repr

/-- Outcome of the subprocess spawn in `check_stdio_server`:
success (with the subsequent handshake behaviour), or one of the exception
classes caught around the probe body. -/
inductive SpawnOutcome
  | ok (hs : HandshakeOutcome)
  | fileNotFound
  | permissionDenied
  | otherExc (msg : String)
deriving DecidableEq, Repr

/-- Environment behaviour observed by one `check_stdio_server` call: the
process-table scan, the port scan, the venv inspection, the spawn and
handshake outcome, and the stderr bytes read from a dead process. -/
structure StdioBehavior where
  running_processes : List String
  scan : Nat → Option ScanResponse
  venvCheck : String → VenvHealth
  spawn : SpawnOutcome
  stderrOut : String

/-- Stdio launch data of a descriptor: `config.get("command")` collapsed to
a string (empty when missing) and the argument list. -/
structure StdioConfig where
  command : String
  args : List String
deriving DecidableEq, Repr

/-- Result dict shared by every process-has-exited return path of
`check_stdio_server` (settle-delay exit, broken pipe, empty response,
timeout with a dead process): offline, upgraded to partial when an
alternative transport was found, with bounded stderr attached.  The source
repeats this block inline at each of those return sites, varying only the
error message. -/
def deadProcResult (server_name : String) (alts : List AltTransport)
    (running : List String) (venv : Option VenvHealth)
    (errMsg stderrOut : String) : ProbeResult :=
  { name := server_name
    transport := .stdio
    status := if alts = [] then .offline else .partialS
    error := some errMsg
    stderr := some (stderrOut.take 500)
    running_processes := running
    alternative_transports := alts
    venv_health := venv }

/-- Result dict shared by the three exception handlers at the end of
`check_stdio_server` (`FileNotFoundError`, `PermissionError`, generic
`Exception`): error, upgraded to partial when an alternative transport was
found. -/
def unattemptableResult (server_name : String) (alts : List AltTransport)
    (running : List String) (venv : Option VenvHealth)
    (errMsg : String) : ProbeResult :=
  { name := server_name
    transport := .stdio
    status := if alts = [] then .error else .partialS
    error := some errMsg
    running_processes := running
    alternative_transports := alts
    venv_health := venv }

/-- Embedding of `check_stdio_server(server_name, config, timeout)`.

The enrichment scans run before the spawn, as in the source.  Wall time in
the online branches is behaviour-supplied; in the timed-out branch it is
the settle delay plus the full read timeout plus the behaviour-supplied
overhead, reflecting that `asyncio.wait_for` raises `TimeoutError` only
after the full timeout has elapsed.  The spawn-environment construction
(HOME, PATH, env overlay) has no observable effect on the returned dict and
is not modelled. -/
def check_stdio_server (server_name : String) (config : StdioConfig)
    (timeout : ℚ) (b : StdioBehavior) : ProbeResult :=
  let running_processes := b.running_processes
  let alternative_transports := gatherAlternatives server_name b.scan
  let venv_health := (venvPathOf config.args).map b.venvCheck
  if config.command = "" then
    { name := server_name
      transport := .stdio
      status := .error
      error := some "no command specified"
      running_processes := running_processes
      alternative_transports := alternative_transports
      venv_health := venv_health }
  else
    match b.spawn with
    | .ok hs =>
      match hs with
      | .settledExit rc =>
          deadProcResult server_name alternative_transports running_processes
            venv_health
            ("process exited immediately with code " ++ toString rc)
            b.stderrOut
      | .brokenPipeExit rc =>
          deadProcResult server_name alternative_transports running_processes
            venv_health
            ("process exited with code " ++ toString rc ++ " (broken pipe)")
            b.stderrOut
      | .line parse elapsedMs =>
          match parse with
          | .jsonWithResultOrError =>
              { name := server_name
                transport := .stdio
                status := .online
                response_time_ms := some (round2 elapsedMs) }
          | .jsonOther =>
              { name := server_name
                transport := .stdio
                status := .online
                response_time_ms := some (round2 elapsedMs)
                note := some "non-standard response" }
          | .notJson =>
              { name := server_name
                transport := .stdio
                status := .online
                response_time_ms := some (round2 elapsedMs)
                note := some "non-json response" }
      | .emptyAlive elapsedMs =>
          { name := server_name
            transport := .stdio
            status := .online
            response_time_ms := some (round2 elapsedMs)
            note := some "process running (no immediate response)" }
      | .emptyExit rc =>
          deadProcResult server_name alternative_transports running_processes
            venv_health
            ("process exited with code " ++ toString rc ++ " (empty response)")
            b.stderrOut
      | .timeoutAlive extraMs =>
          { name := server_name
            transport := .stdio
            status := .online
            response_time_ms :=
              some (round2 (settleDelayMs + 1000 * timeout + extraMs))
            note := some "slow response (process running)" }
      | .timeoutExit rc =>
          deadProcResult server_name alternative_transports running_processes
            venv_health
            ("process exited with code " ++ toString rc ++ " (timeout)")
            b.stderrOut
    | .fileNotFound =>
        unattemptableResult server_name alternative_transports
          running_processes venv_health
          ("command not found: " ++ config.command)
    | .permissionDenied =>
        unattemptableResult server_name alternative_transports
          running_processes venv_health
          ("permission denied: " ++ config.command)
    | .otherExc msg =>
        unattemptableResult server_name alternative_transports
          running_processes venv_health msg

/-! ## HTTP probe (`check_http_server`) -/

/-- HTTP launch data of a descriptor: `config.get("transport", {}).get("url", "")`,
empty when missing. -/
structure HttpConfig where
  url : String
deriving DecidableEq, Repr

/-- Outcome of the single GET issued by `check_http_server`: a response
with some status code, a request timeout, a connection failure, or any
other exception raised by the request. -/
inductive HttpOutcome
  | response (status_code : Nat) (elapsedMs : ℚ)
  | timeout
  | connectionError
  | otherExc (msg : String)
deriving DecidableEq, Repr

/-- Success codes handled by the first branch of `check_http_server`. -/
def successCodes : List Nat := [200, 201, 202, 204, 101]

/-- Reachable-but-erroring codes handled by the second branch of
`check_http_server`. -/
def reachableErrorCodes : List Nat := [400, 401, 403, 404, 405, 500, 502, 503]

/-- Embedding of `check_http_server(server_name, config, timeout)`.  Any
HTTP response classifies online; a timeout or connection failure classifies
offline; any other exception classifies error. -/
def check_http_server (server_name : String) (config : HttpConfig)
    (outcome : HttpOutcome) : ProbeResult :=
  if config.url = "" then
    { name := server_name
      transport := .http
      status := .error
      error := some "no URL specified" }
  else
    match outcome with
    | .response code elapsedMs =>
        if code ∈ successCodes then
          { name := server_name
            transport := .http
            status := .online
            response_time_ms := some (round2 elapsedMs)
            http_status := some code }
        else if code ∈ reachableErrorCodes then
          { name := server_name
            transport := .http
            status := .online
            response_time_ms := some (round2 elapsedMs)
            http_status := some code
            note := some ("reachable but returned HTTP " ++ toString code) }
        else
          { name := server_name
            transport := .http
            status := .online
            response_time_ms := some (round2 elapsedMs)
            http_status := some code
            note := some "unexpected status code" }
    | .timeout =>
        { name := server_name
          transport := .http
          status := .offline
          error := some "timeout" }
    | .connectionError =>
        { name := server_name
          transport := .http
          status := .offline
          error := some "connection_refused" }
    | .otherExc msg =>
        { name := server_name
          transport := .http
          status := .error
          error := some msg }

/-! ## Batch scheduler (`handle_check_all_health`) -/

/-- Registry entry for one server, as read from `mcp_servers.json`:
whether a transport key is present (with its url), whether a command key is
present (with its value, empty string for a falsy value), and the argument
list. -/
structure ServerConfig where
  hasTransport : Bool
  url : String
  hasCommand : Bool
  command : String
  args : List String
deriving DecidableEq, Repr

/-- A server descriptor handed to the batch: registry name plus config. -/
structure Descriptor where
  name : String
  config : ServerConfig
deriving DecidableEq, Repr

/-- Embedding of `get_transport_type(config)`: a transport key means http,
otherwise a command key means stdio, otherwise unknown. -/
def get_transport_type (config : ServerConfig) : Transport :=
  if config.hasTransport = true then .http
  else if config.hasCommand = true then .stdio
  else .unknown

/-- Per-descriptor environment behaviour for one batch run: either the
probe task raised an exception (`raised = some msg`, converted by the
scheduler), or it ran the transport-appropriate check against the recorded
stdio/http behaviour. -/
structure ProbeEnv where
  raised : Option String
  stdio : StdioBehavior
  http : HttpOutcome

/-- Embedding of the `check_server_with_semaphore` dispatch inside
`handle_check_all_health`: stdio and http descriptors run their probe,
anything else yields the unknown-transport error result.  (The semaphore
bounds concurrency only; it does not affect the returned value.) -/
def check_server_with_semaphore (d : Descriptor) (timeout : ℚ)
    (env : ProbeEnv) : ProbeResult :=
  match get_transport_type d.config with
  | .stdio =>
      check_stdio_server d.name
        { command := d.config.command, args := d.config.args } timeout env.stdio
  | .http =>
      check_http_server d.name { url := d.config.url } env.http
  | .unknown =>
      { name := d.name
        transport := .unknown
        status := .error
        error := some "unknown transport type" }

/-- One gathered task outcome, as produced by
`asyncio.gather(..., return_exceptions=True)`: the probe result, or the
exception the task raised. -/
def gatherOutcome (d : Descriptor) (timeout : ℚ)
    (env : ProbeEnv) : Except String ProbeResult :=
  match env.raised with
  | some msg => .error msg
  | none => .ok (check_server_with_semaphore d timeout env)

/-- Embedding of the batch core of `handle_check_all_health` (building the
check list, gathering, and converting raised exceptions into error results
that carry the descriptor name and its transport).  Descriptor names come
from dict keys and are therefore unique in the source, which makes the
`server_transport_map` lookup used by the conversion equal to the transport
of the descriptor at the same position, as written here. -/
def handle_check_all_health (servers : List Descriptor) (timeout : ℚ)
    (env : Descriptor → ProbeEnv) : List ProbeResult :=
  servers.map (fun d =>
    match gatherOutcome d timeout (env d) with
    | .ok r => r
    | .error msg =>
        { name := d.name
          transport := get_transport_type d.config
          status := .error
          error := some msg })

/-! ## Concrete sample inputs used in scenarios, counterexamples and
witnesses -/

/-- A behaviour whose port scan finds nothing and whose process table is
empty. -/
def quietStdioBehavior (spawn : SpawnOutcome) : StdioBehavior :=
  { running_processes := []
    scan := fun _ => none
    venvCheck := fun _ => { status := "healthy" }
    spawn := spawn
    stderrOut := "traceback" }

/-- A behaviour whose port scan finds an HTTP responder on port 5555
self-reporting the identity `srv-a`. -/
def dualHomedBehavior (spawn : SpawnOutcome) : StdioBehavior :=
  { running_processes := []
    scan := fun port =>
      if port = 5555 then some { server := some "srv-a" } else none
    venvCheck := fun _ => { status := "healthy" }
    spawn := spawn
    stderrOut := "" }

/-- Admission-control configuration of the C4 scenario:
`allowed_rejections = 5`, a 10 s sampling window, a 20 s recovery interval
and no startup phase. -/
def c4Config : HealthConfig :=
  { allowed_rejections := 5
    sampling_interval := 10
    recovery_interval := 20
    startup_duration := 0
    degraded_threshold := 1 / 4 }

/-- Request outcomes of the C4 scenario: one success that closes the first
window (making the controller READY), six failures inside the next window,
a success at `t = 22` that closes that window (forcing a recomputation that
sees the six rejections), and a success at `t = 45`, past the recovery
interval, that closes another window. -/
def c4Events : List (Bool × ℤ) :=
  [(true, 11), (false, 12), (false, 13), (false, 14), (false, 15),
   (false, 16), (false, 17), (true, 22), (true, 45)]

/-- Configuration for the C9 counterexample: one allowed rejection per 1 s
window, no startup phase. -/
def c9Config : HealthConfig :=
  { allowed_rejections := 0
    sampling_interval := 1
    recovery_interval := 2
    startup_duration := 0
    degraded_threshold := 1 / 4 }

/-- A READY monitor holding one rejection in a window that started at
`t = 0`. -/
def c9State : HealthMonitor :=
  { HealthMonitor.mk0 0 with is_ready := true, rejection_count := 1 }

/-- A READY monitor past startup with six rejections recorded, used to
instantiate the C4 transition theorem. -/
def c4WitnessState : HealthMonitor :=
  { HealthMonitor.mk0 0 with is_ready := true, rejection_count := 6 }

/-- An UNREADY monitor whose unready period began at `t = 22`. -/
def c4RecoveryState : HealthMonitor :=
  { HealthMonitor.mk0 0 with is_ready := false, unready_since := some 22 }

/-- Two-descriptor batch (one stdio, one http) for the batch witnesses. -/
def sampleServers : List Descriptor :=
  [{ name := "srv-a"
     config :=
       { hasTransport := false, url := "", hasCommand := true,
         command := "run-a", args := [] } },
   { name := "srv-b"
     config :=
       { hasTransport := true, url := "http://localhost:5560/health",
         hasCommand := false, command := "", args := [] } }]

/-- Batch environment in which the stdio probe of `srv-a` raises and the
http probe of `srv-b` answers 200. -/
def sampleEnv (d : Descriptor) : ProbeEnv :=
  if d.name = "srv-a" then
    { raised := some "boom"
      stdio := quietStdioBehavior (.ok (.settledExit 1))
      http := .response 200 3 }
  else
    { raised := none
      stdio := quietStdioBehavior (.ok (.settledExit 1))
      http := .response 200 3 }

/-- Http configuration with a concrete URL. -/
def sampleHttpConfig : HttpConfig :=
  { url := "http://localhost:5560/health" }

/-- Stdio configuration with a concrete command. -/
def sampleStdioConfig : StdioConfig :=
  { command := "run-a", args := [] }

/-! ## Helper lemmas -/

/-- Every return path of `check_stdio_server` carries the probed server
name. -/
theorem check_stdio_server_name (n : String) (c : StdioConfig) (t : ℚ)
    (b : StdioBehavior) : (check_stdio_server n c t b).name = n := by
  obtain ⟨rp, scan, vc, spawn, serr⟩ := b
  simp only [check_stdio_server]
  split
  · rfl
  · cases spawn with
    | ok hs =>
        cases hs with
        | settledExit rc => rfl
        | brokenPipeExit rc => rfl
        | line parse elapsedMs => cases parse <;> rfl
        | emptyAlive elapsedMs => rfl
        | emptyExit rc => rfl
        | timeoutAlive extraMs => rfl
        | timeoutExit rc => rfl
    | fileNotFound => rfl
    | permissionDenied => rfl
    | otherExc msg => rfl

/-- Every return path of `check_http_server` carries the probed server
name. -/
theorem check_http_server_name (n : String) (c : HttpConfig)
    (o : HttpOutcome) : (check_http_server n c o).name = n := by
  simp only [check_http_server]
  split
  · rfl
  · cases o with
    | response code elapsedMs =>
        by_cases h1 : code ∈ successCodes <;>
          by_cases h2 : code ∈ reachableErrorCodes <;>
          simp [h1, h2]
    | timeout => rfl
    | connectionError => rfl
    | otherExc msg => rfl

/-- The scheduler dispatch preserves the descriptor name. -/
theorem check_server_with_semaphore_name (d : Descriptor) (t : ℚ)
    (env : ProbeEnv) : (check_server_with_semaphore d t env).name = d.name := by
  simp only [check_server_with_semaphore]
  cases get_transport_type d.config with
  | stdio => exact check_stdio_server_name ..
  | http => exact check_http_server_name ..
  | unknown => rfl

/-- Every entry of the batch result list carries the name of the
descriptor at the same position, whether its probe returned or raised. -/
theorem handle_check_all_health_names (servers : List Descriptor)
    (timeout : ℚ) (env : Descriptor → ProbeEnv) :
    (handle_check_all_health servers timeout env).map ProbeResult.name =
      servers.map Descriptor.name := by
  simp only [handle_check_all_health, List.map_map]
  refine List.map_congr_left (fun d _ => ?_)
  simp only [Function.comp_apply, gatherOutcome]
  cases h : (env d).raised with
  | some msg => rfl
  | none => exact check_server_with_semaphore_name ..

/-- `_check_readiness` mutates only the readiness flag and
`unready_since`; every other field is preserved. -/
theorem check_readiness_frame (m : HealthMonitor) (cfg : HealthConfig)
    (now : ℤ) :
    (m.check_readiness cfg now).rejection_count = m.rejection_count ∧
    (m.check_readiness cfg now).last_sampling_reset = m.last_sampling_reset ∧
    (m.check_readiness cfg now).total_requests = m.total_requests ∧
    (m.check_readiness cfg now).failed_requests = m.failed_requests ∧
    (m.check_readiness cfg now).failure_count = m.failure_count ∧
    (m.check_readiness cfg now).server_start_time = m.server_start_time ∧
    (m.check_readiness cfg now).last_health_check = m.last_health_check ∧
    (m.check_readiness cfg now).is_live = m.is_live := by
  unfold HealthMonitor.check_readiness
  repeat' split
  all_goals simp

/-- `round(100 q)/100` differs from `q` by less than one half of a
hundredth, downward. -/
theorem round2_gt (q : ℚ) : q - 1 / 200 < round2 q := by
  have h : (100 : ℚ) * q - 1 / 2 < ((round (100 * q) : ℤ) : ℚ) := by
    rw [round_eq]
    have := Int.sub_one_lt_floor ((100 : ℚ) * q + 1 / 2)
    push_cast at this ⊢
    linarith
  unfold round2
  linarith

/-! ## C4: readiness recomputation -/

/-- C4: once the startup duration has elapsed, a recomputation while READY
with `rejection_count > allowed_rejections` transitions to UNREADY and
stamps `unready_since := now`, and a recomputation while UNREADY with
`unready_since` set more than `recovery_interval` ago transitions back to
READY and clears `unready_since`; concretely, with `allowed_rejections = 5`,
recording six failures while READY followed by a window recomputation
yields UNREADY with `unready_since` set, and a later recomputation past the
recovery interval restores READY and clears it. -/
theorem readiness_recompute_transitions (cfg : HealthConfig)
    (m : HealthMonitor) (now : ℤ)
    (hstartup : cfg.startup_duration ≤ now - m.server_start_time) :
    ((m.is_ready = true → cfg.allowed_rejections < m.rejection_count →
        (m.check_readiness cfg now).is_ready = false ∧
        (m.check_readiness cfg now).unready_since = some now) ∧
      (∀ t0, m.is_ready = false → m.unready_since = some t0 →
        cfg.recovery_interval < now - t0 →
        (m.check_readiness cfg now).is_ready = true ∧
        (m.check_readiness cfg now).unready_since = none)) ∧
    ((runEvents (HealthMonitor.mk0 0) c4Config (c4Events.take 7)).is_ready
        = true ∧
      (runEvents (HealthMonitor.mk0 0) c4Config (c4Events.take 8)).is_ready
        = false ∧
      (runEvents (HealthMonitor.mk0 0) c4Config
          (c4Events.take 8)).unready_since = some 22 ∧
      (runEvents (HealthMonitor.mk0 0) c4Config c4Events).is_ready = true ∧
      (runEvents (HealthMonitor.mk0 0) c4Config c4Events).unready_since
        = none) := by
  have hns : ¬ (now - m.server_start_time < cfg.startup_duration) := by
    linarith
  refine ⟨⟨?_, ?_⟩, by decide⟩
  · intro hready hrej
    simp [HealthMonitor.check_readiness, hns, hready, hrej]
  · intro t0 hready hsince hrec
    simp [HealthMonitor.check_readiness, hns, hready, hsince, hrec]

/-- Witness for C4: a READY monitor with six recorded rejections against a
threshold of five goes UNREADY at `t = 30`, and an UNREADY monitor whose
unready period began at `t = 22` recovers at `t = 50`. -/
theorem readiness_recompute_transitions_witness :
    ((c4WitnessState.check_readiness c4Config 30).is_ready = false ∧
      (c4WitnessState.check_readiness c4Config 30).unready_since
        = some 30) ∧
    ((c4RecoveryState.check_readiness c4Config 50).is_ready = true ∧
      (c4RecoveryState.check_readiness c4Config 50).unready_since
        = none) :=
  ⟨(readiness_recompute_transitions c4Config c4WitnessState 30
      (by decide)).1.1 (by decide) (by decide),
    (readiness_recompute_transitions c4Config c4RecoveryState 50
      (by decide)).1.2 22 (by decide) (by decide) (by decide)⟩

/-! ## C5: liveness threshold -/

/-- C5: the liveness probe reports DOWN exactly when the consecutive
failure counter has reached 10, and one recorded success resets the
counter to 0 so the next liveness query reports UP. -/
theorem liveness_threshold_and_reset (cfg : HealthConfig)
    (m : HealthMonitor) (now nowAfter : ℤ) :
    ((m.get_liveness cfg now).1.up = false ↔ 10 ≤ m.failure_count) ∧
    (m.record_request cfg true now).failure_count = 0 ∧
    ((m.record_request cfg true now).get_liveness cfg nowAfter).1.up
      = true := by
  have hreset : (m.record_request cfg true now).failure_count = 0 := by
    simp only [HealthMonitor.record_request, Bool.true_eq_false, if_false]
    split
    · exact ((check_readiness_frame _ cfg now).2.2.2.2.1).trans rfl
    · rfl
  refine ⟨?_, hreset, ?_⟩
  · simp [HealthMonitor.get_liveness, Nat.not_lt]
  · simp [HealthMonitor.get_liveness, hreset]

/-! ## C6: degraded state -/

/-- C6: the readiness snapshot reports degraded exactly when the controller
is READY (after the forced window recomputation) and the error rate
reaches `degraded_threshold`; in particular degraded is false whenever the
snapshot reports DOWN, and the error rate is `failed / total` whenever any
request was recorded. -/
theorem degraded_iff_ready_and_error_rate (cfg : HealthConfig)
    (m : HealthMonitor) (now : ℤ) :
    ((m.get_readiness cfg now).1.degraded = true ↔
      ((m.get_readiness cfg now).2.is_ready = true ∧
        cfg.degraded_threshold ≤ (m.get_readiness cfg now).1.error_rate)) ∧
    ((m.get_readiness cfg now).1.up = false →
      (m.get_readiness cfg now).1.degraded = false) ∧
    (0 < (m.get_readiness cfg now).2.total_requests →
      (m.get_readiness cfg now).1.error_rate =
        ((m.get_readiness cfg now).2.failed_requests : ℚ) /
          ((m.get_readiness cfg now).2.total_requests : ℚ)) := by
  simp only [HealthMonitor.get_readiness]
  refine ⟨?_, ?_, ?_⟩
  · cases h : (if cfg.sampling_interval < now - m.last_sampling_reset then
        m.check_readiness cfg now else m).is_ready <;>
      simp [h, and_comm]
  · intro hdown
    simp [hdown]
  · intro hpos
    simp [hpos]

/-! ## C9: getter side effects -/

/-- Counterexample to C9 as stated: querying readiness on a READY monitor
holding one rejection after the 1 s sampling window has elapsed mutates the
controller state (the forced `_check_readiness` call flips `is_ready`). -/
theorem readiness_getter_mutates_state :
    (c9State.get_readiness c9Config 5).2 ≠ c9State ∧
    ((c9State.get_readiness c9Config 5).2).is_ready = false ∧
    c9State.is_ready = true := by
  decide

/-- C9 amended: the startup and liveness getters leave the state unchanged;
the readiness getter (and the composite getter, which delegates to it)
never changes any counter, window state or timestamp — only possibly
`is_ready` and `unready_since` via the forced recomputation — and when the
sampling window has not yet elapsed it too leaves the state completely
unchanged. -/
theorem getters_frame (cfg : HealthConfig) (m : HealthMonitor) (now : ℤ) :
    (m.get_startup_status cfg now).2 = m ∧
    (m.get_liveness cfg now).2 = m ∧
    ((m.get_readiness cfg now).2.rejection_count = m.rejection_count ∧
      (m.get_readiness cfg now).2.last_sampling_reset
        = m.last_sampling_reset ∧
      (m.get_readiness cfg now).2.total_requests = m.total_requests ∧
      (m.get_readiness cfg now).2.failed_requests = m.failed_requests ∧
      (m.get_readiness cfg now).2.failure_count = m.failure_count ∧
      (m.get_readiness cfg now).2.server_start_time = m.server_start_time ∧
      (m.get_readiness cfg now).2.last_health_check
        = m.last_health_check) ∧
    (now - m.last_sampling_reset ≤ cfg.sampling_interval →
      (m.get_readiness cfg now).2 = m) ∧
    (m.get_probe_status cfg now).2 = (m.get_readiness cfg now).2 := by
  have hframe := check_readiness_frame m cfg now
  refine ⟨rfl, rfl, ?_, ?_, rfl⟩
  · simp only [HealthMonitor.get_readiness]
    split
    · exact ⟨hframe.1, hframe.2.1, hframe.2.2.1, hframe.2.2.2.1,
        hframe.2.2.2.2.1, hframe.2.2.2.2.2.1, hframe.2.2.2.2.2.2.1⟩
    · simp
  · intro hwin
    simp [HealthMonitor.get_readiness, not_lt.2 hwin]

/-- Witness for the amended C9: on a freshly constructed monitor queried
inside the sampling window, the readiness getter returns the state
unchanged, as does the startup getter. -/
theorem getters_frame_witness :
    ((HealthMonitor.mk0 0).get_readiness c9Config 0).2
      = HealthMonitor.mk0 0 ∧
    ((HealthMonitor.mk0 0).get_startup_status c9Config 0).2
      = HealthMonitor.mk0 0 :=
  ⟨(getters_frame c9Config (HealthMonitor.mk0 0) 0).2.2.2.1 (by decide),
    (getters_frame c9Config (HealthMonitor.mk0 0) 0).1⟩

/-! ## C3: dead stdio process classification -/

/-- C3: a stdio probe whose process has already exited when checked after
the settle delay, or whose handshake write hits a broken pipe with the
process exited, classifies offline when the port scan found no alternative
transport with matching identity and partial when it found one; with no
alternative transport the result is never online or partial. -/
theorem stdio_dead_process_classification (n : String) (c : StdioConfig)
    (t : ℚ) (b : StdioBehavior) (rc : Int)
    (hcmd : c.command ≠ "")
    (hdead : b.spawn = .ok (.settledExit rc) ∨
      b.spawn = .ok (.brokenPipeExit rc)) :
    (check_stdio_server n c t b).status =
      (if gatherAlternatives n b.scan = [] then Status.offline
        else Status.partialS) ∧
    (gatherAlternatives n b.scan = [] →
      (check_stdio_server n c t b).status = Status.offline ∧
      (check_stdio_server n c t b).status ≠ Status.online ∧
      (check_stdio_server n c t b).status ≠ Status.partialS) := by
  have hstat : (check_stdio_server n c t b).status =
      (if gatherAlternatives n b.scan = [] then Status.offline
        else Status.partialS) := by
    rcases hdead with h | h <;>
      simp [check_stdio_server, hcmd, h, deadProcResult]
  refine ⟨hstat, fun halts => ?_⟩
  rw [hstat, if_pos halts]
  refine ⟨rfl, ?_, ?_⟩ <;> decide

/-- Witness for C3: a command that exits immediately with code 1 and no
alternative transport anywhere classifies offline. -/
theorem stdio_dead_process_offline_witness :
    (check_stdio_server "srv-a" sampleStdioConfig 5
        (quietStdioBehavior (.ok (.settledExit 1)))).status
      = Status.offline :=
  ((stdio_dead_process_classification "srv-a" sampleStdioConfig 5
      (quietStdioBehavior (.ok (.settledExit 1))) 1 (by decide)
      (Or.inl rfl)).2 (by decide)).1

/-! ## C8: stdio handshake timeout with a live process -/

/-- C8: a stdio probe whose handshake read times out while the process is
still alive classifies online, carries the slow-response annotation, and
reports a response time of at least the configured timeout (the elapsed
time is the settle delay plus the full timed-out read plus nonnegative
overhead). -/
theorem stdio_timeout_alive_online (n : String) (c : StdioConfig) (t : ℚ)
    (b : StdioBehavior) (extraMs : ℚ)
    (hcmd : c.command ≠ "")
    (hspawn : b.spawn = .ok (.timeoutAlive extraMs))
    (hextra : 0 ≤ extraMs) :
    (check_stdio_server n c t b).status = Status.online ∧
    (check_stdio_server n c t b).note
      = some "slow response (process running)" ∧
    ∃ ms, (check_stdio_server n c t b).response_time_ms = some ms ∧
      1000 * t ≤ ms := by
  have hms : (check_stdio_server n c t b).response_time_ms =
      some (round2 (settleDelayMs + 1000 * t + extraMs)) := by
    simp [check_stdio_server, hcmd, hspawn]
  refine ⟨?_, ?_, round2 (settleDelayMs + 1000 * t + extraMs), hms, ?_⟩
  · simp [check_stdio_server, hcmd, hspawn]
  · simp [check_stdio_server, hcmd, hspawn]
  · have hb := round2_gt (settleDelayMs + 1000 * t + extraMs)
    have h50 : settleDelayMs = 50 := rfl
    linarith

/-- Witness for C8: with a 5 s timeout and 2 ms of overhead the probe is
online, annotated slow, and reports at least 5000 ms. -/
theorem stdio_timeout_alive_online_witness :
    (check_stdio_server "srv-a" sampleStdioConfig 5
        (quietStdioBehavior (.ok (.timeoutAlive 2)))).status
      = Status.online ∧
    ∃ ms, (check_stdio_server "srv-a" sampleStdioConfig 5
        (quietStdioBehavior (.ok (.timeoutAlive 2)))).response_time_ms
      = some ms ∧ 1000 * (5 : ℚ) ≤ ms :=
  ⟨(stdio_timeout_alive_online "srv-a" sampleStdioConfig 5
      (quietStdioBehavior (.ok (.timeoutAlive 2))) 2 (by decide) rfl
      (by norm_num)).1,
    (stdio_timeout_alive_online "srv-a" sampleStdioConfig 5
      (quietStdioBehavior (.ok (.timeoutAlive 2))) 2 (by decide) rfl
      (by norm_num)).2.2⟩

/-! ## C10: missing executable -/

/-- Counterexample to C10 as stated: a stdio probe whose spawn fails with
file-not-found classifies partial, not error, when the port scan found an
alternative transport with matching identity. -/
theorem missing_command_with_alternative_not_error :
    (check_stdio_server "srv-a" { command := "missing-bin", args := [] } 5
        (dualHomedBehavior .fileNotFound)).status ≠ Status.error ∧
    (check_stdio_server "srv-a" { command := "missing-bin", args := [] } 5
        (dualHomedBehavior .fileNotFound)).status = Status.partialS := by
  decide

/-- C10 amended: a stdio probe whose spawn fails with file-not-found
classifies error when no alternative transport with matching identity was
found, and partial when one was found; the running-process scan and venv
signals never affect this classification. -/
theorem stdio_missing_command_classification (n : String) (c : StdioConfig)
    (t : ℚ) (b : StdioBehavior)
    (hcmd : c.command ≠ "") (hspawn : b.spawn = .fileNotFound) :
    (check_stdio_server n c t b).status =
      (if gatherAlternatives n b.scan = [] then Status.error
        else Status.partialS) ∧
    (check_stdio_server n c t b).error
      = some ("command not found: " ++ c.command) := by
  constructor <;> simp [check_stdio_server, hcmd, hspawn, unattemptableResult]

/-- Witness for the amended C10: a missing executable with no alternative
transport classifies error. -/
theorem stdio_missing_command_classification_witness :
    (check_stdio_server "srv-a" sampleStdioConfig 5
        (quietStdioBehavior .fileNotFound)).status
      = (if gatherAlternatives "srv-a"
            (quietStdioBehavior .fileNotFound).scan = [] then Status.error
          else Status.partialS) ∧
    (check_stdio_server "srv-a" sampleStdioConfig 5
        (quietStdioBehavior .fileNotFound)).error
      = some ("command not found: " ++ sampleStdioConfig.command) :=
  stdio_missing_command_classification "srv-a" sampleStdioConfig 5
    (quietStdioBehavior .fileNotFound) (by decide) rfl

/-! ## C7: http probe classification -/

/-- C7: an http probe with a URL classifies every HTTP response online
(any status code, with a note whenever the code is not in the success
list — for 404 the note annotates the non-2xx status), a request timeout
offline, a connection failure offline, and any other exception error. -/
theorem http_probe_classification (n : String) (c : HttpConfig)
    (hurl : c.url ≠ "") :
    (∀ code elapsedMs,
      (check_http_server n c (.response code elapsedMs)).status
        = Status.online) ∧
    (∀ code elapsedMs, code ∉ successCodes →
      ((check_http_server n c (.response code elapsedMs)).note).isSome
        = true) ∧
    (∀ elapsedMs,
      (check_http_server n c (.response 404 elapsedMs)).note
        = some "reachable but returned HTTP 404") ∧
    (check_http_server n c .timeout).status = Status.offline ∧
    (check_http_server n c .connectionError).status = Status.offline ∧
    (∀ msg, (check_http_server n c (.otherExc msg)).status
      = Status.error) := by
  refine ⟨?_, ?_, ?_, ?_, ?_, ?_⟩
  · intro code elapsedMs
    by_cases h1 : code ∈ successCodes <;>
      by_cases h2 : code ∈ reachableErrorCodes <;>
      simp [check_http_server, hurl, h1, h2]
  · intro code elapsedMs h1
    by_cases h2 : code ∈ reachableErrorCodes <;>
      simp [check_http_server, hurl, h1, h2]
  · intro elapsedMs
    have h1 : (404 : Nat) ∉ successCodes := by decide
    have h2 : (404 : Nat) ∈ reachableErrorCodes := by decide
    simp [check_http_server, hurl, h1, h2]
    rfl
  · simp [check_http_server, hurl]
  · simp [check_http_server, hurl]
  · intro msg
    simp [check_http_server, hurl]

/-- Witness for C7: against a concrete URL, a 404 response is online with
the annotating note, and a timeout is offline. -/
theorem http_probe_classification_witness :
    (check_http_server "srv-b" sampleHttpConfig (.response 404 3)).status
      = Status.online ∧
    (check_http_server "srv-b" sampleHttpConfig (.response 404 3)).note
      = some "reachable but returned HTTP 404" ∧
    (check_http_server "srv-b" sampleHttpConfig .timeout).status
      = Status.offline :=
  ⟨(http_probe_classification "srv-b" sampleHttpConfig (by decide)).1 404 3,
    (http_probe_classification "srv-b" sampleHttpConfig
      (by decide)).2.2.1 3,
    (http_probe_classification "srv-b" sampleHttpConfig
      (by decide)).2.2.2.1⟩

/-! ## C1: batch completeness -/

/-- C1: whatever each probe does (any status or a raised exception), the
batch result contains exactly one probe result per input descriptor, in
the input order: the result names are exactly the descriptor names, and
each descriptor name (names coming from dict keys are unique) occurs in
the results exactly once. -/
theorem batch_exactly_one_result_per_descriptor
    (servers : List Descriptor) (timeout : ℚ) (env : Descriptor → ProbeEnv)
    (hnodup : (servers.map Descriptor.name).Nodup) :
    (handle_check_all_health servers timeout env).map ProbeResult.name
      = servers.map Descriptor.name ∧
    ∀ d ∈ servers,
      ((handle_check_all_health servers timeout env).map
        ProbeResult.name).count d.name = 1 := by
  refine ⟨handle_check_all_health_names .., fun d hd => ?_⟩
  rw [handle_check_all_health_names]
  exact List.count_eq_one_of_mem hnodup (List.mem_map_of_mem _ hd)

/-- Witness for C1: a two-descriptor batch, one probe raising, yields one
result per descriptor. -/
theorem batch_exactly_one_result_per_descriptor_witness :
    (handle_check_all_health sampleServers 5 sampleEnv).map ProbeResult.name
      = sampleServers.map Descriptor.name ∧
    ∀ d ∈ sampleServers,
      ((handle_check_all_health sampleServers 5 sampleEnv).map
        ProbeResult.name).count d.name = 1 :=
  batch_exactly_one_result_per_descriptor sampleServers 5 sampleEnv
    (by decide)

/-! ## C2: exception containment -/

/-- C2: when the probe task of the descriptor at position `i` raises, the
batch still has one entry per descriptor (nothing propagates out of the
scheduler, which is total by construction) and the entry at position `i`
is an error result carrying the name of that descriptor, its transport and the
exception message. -/
theorem batch_exception_converted (servers : List Descriptor) (timeout : ℚ)
    (env : Descriptor → ProbeEnv) (i : Nat) (hi : i < servers.length)
    (msg : String)
    (hraised : (env (servers.get ⟨i, hi⟩)).raised = some msg) :
    (handle_check_all_health servers timeout env).length
      = servers.length ∧
    (handle_check_all_health servers timeout env)[i]? =
      some { name := (servers.get ⟨i, hi⟩).name
             transport := get_transport_type (servers.get ⟨i, hi⟩).config
             status := Status.error
             error := some msg } := by
  have hget : servers.get ⟨i, hi⟩ = servers[i] := rfl
  rw [hget] at hraised
  constructor
  · simp [handle_check_all_health]
  · rw [hget]
    simp [handle_check_all_health, List.getElem?_map,
      List.getElem?_eq_getElem hi, gatherOutcome, hraised]

/-- Witness for C2: in the two-descriptor batch whose first probe raises
"boom", the first result is the converted error result with the
name of the descriptor and the stdio transport. -/
theorem batch_exception_converted_witness :
    (handle_check_all_health sampleServers 5 sampleEnv).length
      = sampleServers.length ∧
    (handle_check_all_health sampleServers 5 sampleEnv)[0]? =
      some { name := (sampleServers.get ⟨0, by decide⟩).name
             transport :=
               get_transport_type (sampleServers.get ⟨0, by decide⟩).config
             status := Status.error
             error := some "boom" } :=
  batch_exception_converted sampleServers 5 sampleEnv 0 (by decide) "boom"
    rfl

end Diagnostics
